import Mathlib

/-!
Shallow embedding of the white-paper / presentation viewer frontend:
the per-line markup renderers of the two surfaces, the slide and section
navigation handlers, the view-session state machine, and the global
keydown listener.  Raw text and lines are modelled as lists of
characters; the JavaScript string operations used by the source
(split, trim, startsWith, endsWith, replace) are modelled by the
list functions below.
-/

/-- A line of raw text (or a whole raw text), as its list of characters. -/
abbrev Line := List Char

/-- Models the JavaScript test `line.trim() === ''`: true exactly when the
line consists only of whitespace characters. -/
def isBlank (l : Line) : Bool := l.all (fun c => c.isWhitespace)

/-- Models JavaScript `String.prototype.replace` with a string pattern:
only the first (leftmost) occurrence of `pat` is replaced by `repl`. -/
def replaceFirst (pat repl : Line) : Line → Line
  | [] => []
  | c :: cs =>
    if pat.isPrefixOf (c :: cs) ∧ pat ≠ [] then repl ++ (c :: cs).drop pat.length
    else c :: replaceFirst pat repl cs

/-- Fuel-indexed helper for global replacement (leftmost, non-overlapping),
modelling JavaScript `String.prototype.replace` with a global regexp such
as `/\*\*/g`.  The fuel is the length of the remaining input, which always
suffices because every step consumes at least one character. -/
def replaceAllFuel (pat repl : Line) : Nat → Line → Line
  | _, [] => []
  | 0, l => l
  | n + 1, c :: cs =>
    if pat.isPrefixOf (c :: cs) ∧ pat ≠ [] then
      repl ++ replaceAllFuel pat repl n (cs.drop (pat.length - 1))
    else c :: replaceAllFuel pat repl n cs

/-- Replace every (leftmost, non-overlapping) occurrence of `pat` in `l`. -/
def replaceAll (pat repl l : Line) : Line := replaceAllFuel pat repl l.length l

/-- Models the anchored regexp replace `line.replace(/^\*/, '')`. -/
def stripLeadingStar : Line → Line
  | '*' :: rest => rest
  | l => l

/-- Models JavaScript `content.split('\n')`: split on newline characters,
keeping empty pieces, and yielding `[""]` for the empty string. -/
def splitLines : Line → List Line
  | [] => [[]]
  | c :: cs =>
    if c = '\n' then [] :: splitLines cs
    else
      match splitLines cs with
      | [] => [[c]]
      | l :: ls => (c :: l) :: ls

/-- A typed presentational block, covering both rendering surfaces; the
visual class/weight information of the source is abstracted away and only
the block type and the text payload are kept. -/
inductive Block where
  | lineBreak
  | heading1 (text : Line)
  | heading2 (text : Line)
  | heading3 (text : Line)
  | emphasisStrong (text : Line)
  | emphasisLight (text : Line)
  | codeBlock (text : Line)
  | listItem (text : Line)
  | divider
  | paragraph (text : Line)
deriving DecidableEq

/-- The type of a block, with the payload forgotten. -/
inductive BlockType where
  | lineBreak
  | heading1
  | heading2
  | heading3
  | emphasisStrong
  | emphasisLight
  | codeBlock
  | listItem
  | divider
  | paragraph
deriving DecidableEq

/-- The block type of a block. -/
def Block.btype : Block → BlockType
  | .lineBreak => .lineBreak
  | .heading1 _ => .heading1
  | .heading2 _ => .heading2
  | .heading3 _ => .heading3
  | .emphasisStrong _ => .emphasisStrong
  | .emphasisLight _ => .emphasisLight
  | .codeBlock _ => .codeBlock
  | .listItem _ => .listItem
  | .divider => .divider
  | .paragraph _ => .paragraph

/-- Per-line classification done by `renderSlideContent` in
`PresentationViewer.js` (lines 46-78): blank lines become a line break
element, then the first matching branch of the if-chain applies. -/
def renderSlideLine (line : Line) : Block :=
  if isBlank line then .lineBreak
  else if (['#', ' '] : Line).isPrefixOf line then
    .heading1 (replaceFirst ['#', ' '] [] line)
  else if (['#', '#', ' '] : Line).isPrefixOf line then
    .heading2 (replaceFirst ['#', '#', ' '] [] line)
  else if (['#', '#', '#', ' '] : Line).isPrefixOf line then
    .heading3 (replaceFirst ['#', '#', '#', ' '] [] line)
  else if (['*', '*'] : Line).isPrefixOf line && (['*', '*'] : Line).isSuffixOf line then
    .emphasisStrong (replaceAll ['*', '*'] [] line)
  else if (['*'] : Line).isPrefixOf line && !((['*', '*'] : Line).isPrefixOf line) then
    .emphasisLight (stripLeadingStar line)
  else if (['-', ' '] : Line).isPrefixOf line then
    .listItem (replaceFirst ['-', ' '] [] line)
  else if (['-', '-', '-'] : Line).isPrefixOf line then
    .divider
  else .paragraph line

/-- The slide surface renderer `renderSlideContent` (PresentationViewer.js
line 46): split on newlines and classify each line. -/
def renderSlideContent (content : Line) : List Block :=
  (splitLines content).map renderSlideLine

/-- Per-line classification done by `renderContent` in the white-paper
viewer (part_001 lines 44-59): a blank line yields `none` (React `null`,
which renders nothing), otherwise the first matching branch applies. -/
def renderDocLine (line : Line) : Option Block :=
  if isBlank line then none
  else if (['*', '*'] : Line).isPrefixOf line && (['*', '*'] : Line).isSuffixOf line then
    some (.emphasisStrong (replaceAll ['*', '*'] [] line))
  else if (['*'] : Line).isPrefixOf line && (['*'] : Line).isSuffixOf line then
    some (.emphasisLight (replaceAll ['*'] [] line))
  else if (['`', '`', '`'] : Line).isPrefixOf line && (['`', '`', '`'] : Line).isSuffixOf line then
    some (.codeBlock (replaceAll ['`', '`', '`'] [] line))
  else some (.paragraph line)

/-- The document surface renderer `renderContent` (part_001 line 43):
split on newlines and classify each line; blank lines stay as `none`. -/
def renderContent (content : Line) : List (Option Block) :=
  (splitLines content).map renderDocLine

/-- The presentational units actually emitted by the document renderer
(the `null` entries of `renderContent` render nothing). -/
def docUnits (content : Line) : List Block :=
  (renderContent content).reduceOption

/-- The navigation state of the presentation viewer: the `currentSlide`
React state (an integer index into the slide list). -/
structure SlideNav where
  currentSlide : Int
deriving DecidableEq

/-- `goToSlide` (PresentationViewer.js lines 41-43): set the current slide
to the given index, with no bounds check. -/
def goToSlide (s : SlideNav) (index : Int) : SlideNav :=
  { s with currentSlide := index }

/-- `nextSlide` (PresentationViewer.js lines 29-33): increment the current
slide if it is below `slides.length - 1`, otherwise do nothing. -/
def nextSlide (numSlides : Int) (s : SlideNav) : SlideNav :=
  if s.currentSlide < numSlides - 1 then { s with currentSlide := s.currentSlide + 1 } else s

/-- `prevSlide` (PresentationViewer.js lines 35-39): decrement the current
slide if it is above 0, otherwise do nothing. -/
def prevSlide (s : SlideNav) : SlideNav :=
  if s.currentSlide > 0 then { s with currentSlide := s.currentSlide - 1 } else s

/-- The white-paper viewer's sentinel position for the Abstract entry. -/
def abstractPos : Int := -1

/-- The white-paper viewer's sentinel position for the References entry
(part_001 line 137: `setActiveSection(-2)`). -/
def referencesPos : Int := -2

/-- The white-paper viewer's Previous button handler (part_001 line 232):
`setActiveSection(Math.max(-1, activeSection - 1))`. -/
def prevSection (activeSection : Int) : Int :=
  max (-1) (activeSection - 1)

/-- The white-paper viewer's Next button handler (part_001 line 242):
`setActiveSection(Math.min(sections.length - 1, activeSection + 1))`. -/
def nextSection (numSections activeSection : Int) : Int :=
  min (numSections - 1) (activeSection + 1)

/-- A figure of a section: inline vector markup and a caption. -/
structure Figure where
  svg_content : Line
  caption : Line
deriving DecidableEq

/-- A section of the white paper: title, raw markup content, figures. -/
structure DocSection where
  title : Line
  content : Line
  figures : List Figure
deriving DecidableEq

/-- A presentational unit of the rendered section view: either a parsed
content block or a figure unit showing the vector markup followed by its
caption. -/
inductive Pane where
  | block (b : Block)
  | figureUnit (svg : Line) (caption : Line)
deriving DecidableEq

/-- `renderFigure` (part_001 lines 29-41): if `svg_content` is truthy
(non-empty), emit a figure unit with the markup and then the caption;
otherwise emit nothing (`null`). -/
def renderFigure (f : Figure) : Option Pane :=
  if f.svg_content ≠ [] then some (.figureUnit f.svg_content f.caption) else none

/-- The section body rendering of the white-paper viewer (part_001 lines
211-226): the parsed content blocks, followed by one rendered figure per
entry of the section's figure list, in list order. -/
def renderSection (s : DocSection) : List Pane :=
  (docUnits s.content).map Pane.block ++ (s.figures.map renderFigure).reduceOption

/-- A slide of the presentation: title, raw markup content, optional
speaker notes. -/
structure Slide where
  title : Line
  content : Line
  notes : Option Line
deriving DecidableEq

/-- The React state of the presentation view session
(PresentationViewer.js lines 9-12). -/
structure SessionState where
  presentation : Option (List Slide)
  loading : Bool
  error : Option Line
  nav : SlideNav
deriving DecidableEq

/-- The initial session state: nothing fetched, loading, no error,
current slide 0. -/
def initialState : SessionState :=
  { presentation := none, loading := true, error := none, nav := ⟨0⟩ }

/-- The error message set by the catch branch of `fetchPresentation`. -/
def failMsg : Line := "Failed to load presentation".toList

/-- Successful resolution of the single session-start fetch
(PresentationViewer.js lines 20-22). -/
def applyFetchSuccess (slides : List Slide) (s : SessionState) : SessionState :=
  { s with presentation := some slides, loading := false }

/-- Failed resolution of the single session-start fetch
(PresentationViewer.js lines 23-26): record the error and stop loading;
no retry is issued. -/
def applyFetchFailure (s : SessionState) : SessionState :=
  { s with error := some failMsg, loading := false }

/-- The user-driven operations this layer performs after the fetch has
resolved: the Previous/Next buttons and the direct-jump buttons. -/
inductive NavEvent where
  | next
  | prev
  | goTo (index : Int)

/-- Apply a navigation event to the session state: only the `nav` field
is touched; no event re-fetches or clears the error. -/
def navStep (s : SessionState) : NavEvent → SessionState
  | .next => { s with nav := nextSlide ((s.presentation.getD []).length : Int) s.nav }
  | .prev => { s with nav := prevSlide s.nav }
  | .goTo i => { s with nav := goToSlide s.nav i }

/-- What the component returns from its render function: the loading
screen, the error screen (message plus a link back to the given path),
or the main content (the rendered blocks of the current slide). -/
inductive View where
  | loadingView
  | errorView (message : Line) (backLink : Line)
  | contentView (blocks : List Block)
deriving DecidableEq

/-- The home path targeted by the error screen's back link. -/
def homePath : Line := "/".toList

/-- The rendered blocks of the current slide, when a presentation is
loaded and the index is in range; nothing otherwise. -/
def currentSlideContent (s : SessionState) : List Block :=
  match s.presentation with
  | none => []
  | some slides =>
    if h : 0 ≤ s.nav.currentSlide ∧ s.nav.currentSlide.toNat < slides.length then
      renderSlideContent (slides.get ⟨s.nav.currentSlide.toNat, h.2⟩).content
    else []

/-- The render function of `PresentationViewer` (lines 81-101 and the main
return): the loading screen while `loading` is set, else the error screen
when `error` is set, else the slide content. -/
def renderViewer (s : SessionState) : View :=
  if s.loading then .loadingView
  else
    match s.error with
    | some msg => .errorView msg homePath
    | none => .contentView (currentSlideContent s)

/-- The effects a keydown event can produce in this layer: a call to
`preventDefault`, a navigation command dispatched to the slide state, and
an assignment to `window.location.href`. -/
structure KeyEffect where
  preventDefault : Bool
  navCommand : Option NavEvent
  redirect : Option String

/-- The process-wide keydown listener installed at module load
(PresentationViewer.js lines 222-239): on the `/presentation` path, the
arrow keys only call `preventDefault` (the switch arms carry a comment
that slide handling "would need to be handled by the component"), and
Escape assigns `/` to `window.location.href`; every other key, and every
other path, does nothing. -/
def keydownHandler (pathname key : String) : KeyEffect :=
  if pathname = "/presentation" then
    if key = "ArrowLeft" then ⟨true, none, none⟩
    else if key = "ArrowRight" then ⟨true, none, none⟩
    else if key = "Escape" then ⟨false, none, some "/"⟩
    else ⟨false, none, none⟩
  else ⟨false, none, none⟩

theorem isPrefixOf_cons_iff (a : Char) (as l : Line) :
    (a :: as).isPrefixOf l = true ↔ ∃ t, l = a :: t ∧ as.isPrefixOf t = true := by
  cases l with
  | nil => simp [List.isPrefixOf]
  | cons b bs =>
    simp only [List.isPrefixOf, Bool.and_eq_true, beq_iff_eq, List.cons.injEq]
    constructor
    · rintro ⟨rfl, h⟩; exact ⟨bs, ⟨rfl, rfl⟩, h⟩
    · rintro ⟨t, ⟨rfl, rfl⟩, h⟩; exact ⟨rfl, h⟩

theorem isBlank_false_of_cons (c : Char) (cs : Line) (h : c.isWhitespace = false) :
    isBlank (c :: cs) = false := by
  simp [isBlank, h]

theorem renderDocLine_eq_none_iff (l : Line) :
    renderDocLine l = none ↔ isBlank l = true := by
  unfold renderDocLine
  split_ifs with h <;> simp_all

theorem docUnits_length (ls : List Line) :
    ((ls.map renderDocLine).reduceOption).length
      = (ls.filter (fun l => !(isBlank l))).length := by
  induction ls with
  | nil => simp
  | cons l ls ih =>
    by_cases hb : isBlank l = true
    · have hn : renderDocLine l = none := (renderDocLine_eq_none_iff l).2 hb
      simp [hn, hb, ih]
    · have hn : renderDocLine l ≠ none := fun h => hb ((renderDocLine_eq_none_iff l).1 h)
      obtain ⟨b, hbm⟩ := Option.ne_none_iff_exists'.1 hn
      simp [hbm, hb, ih]

theorem renderSlideLine_lineBreak_iff (l : Line) :
    renderSlideLine l = Block.lineBreak ↔ isBlank l = true := by
  unfold renderSlideLine
  split_ifs with h <;> simp_all

theorem strongLine (line : Line)
    (hp : (['*', '*'] : Line).isPrefixOf line = true)
    (hs : (['*', '*'] : Line).isSuffixOf line = true) :
    renderSlideLine line = Block.emphasisStrong (replaceAll ['*', '*'] [] line) ∧
    renderDocLine line = some (Block.emphasisStrong (replaceAll ['*', '*'] [] line)) := by
  obtain ⟨t, rfl, h2⟩ := (isPrefixOf_cons_iff '*' ['*'] line).1 hp
  obtain ⟨u, rfl, -⟩ := (isPrefixOf_cons_iff '*' [] t).1 h2
  have hw : ('*' : Char).isWhitespace = false := by decide
  have hh : (('#' : Char) == '*') = false := by decide
  have hss : (('*' : Char) == '*') = true := by decide
  simp [renderSlideLine, renderDocLine, isBlank, List.isPrefixOf, hw, hh, hss, hs]

theorem slideStrong_iff (line : Line) :
    (renderSlideLine line).btype = BlockType.emphasisStrong ↔
      ((['*', '*'] : Line).isPrefixOf line = true ∧
        (['*', '*'] : Line).isSuffixOf line = true) := by
  constructor
  · intro h
    unfold renderSlideLine at h
    split_ifs at h with h1 h2 h3 h4 h5 h6 h7 h8 <;>
      simp_all [Block.btype, Bool.and_eq_true]
  · rintro ⟨hp, hs⟩
    rw [(strongLine line hp hs).1]
    rfl

/-- C1 counterexample: for a 12-slide deck the claim says goTo(99) yields
index 11 and goTo(-5) yields index 0; the code stores 99 and -5 verbatim. -/
theorem C1_counterexample :
    (goToSlide ⟨0⟩ 99).currentSlide = 99 ∧ (goToSlide ⟨0⟩ 99).currentSlide ≠ 11 ∧
    (goToSlide ⟨0⟩ (-5)).currentSlide = -5 ∧ (goToSlide ⟨0⟩ (-5)).currentSlide ≠ 0 := by
  decide

/-- C1 amended: goToSlide sets the current slide index to the given
position unconditionally, with no clamping, and never fails. -/
theorem C1_goTo_unclamped :
    ∀ (s : SlideNav) (index : Int), (goToSlide s index).currentSlide = index :=
  fun _ _ => rfl

/-- C2 counterexample: the two surfaces do not classify every non-blank
line into the same block type; the line "# Intro" is heading-1 on the
slide surface and a paragraph on the document surface. -/
theorem C2_counterexample :
    ¬ ∀ line : Line, isBlank line = false →
        (renderDocLine line).map Block.btype = some (renderSlideLine line).btype := by
  intro h
  exact absurd (h "# Intro".toList (by decide)) (by decide)

/-- C2 amended: the surfaces use different rule tables — the document
surface has no heading, list-item or divider rules (those lines fall to
paragraph), while both surfaces agree on lines wrapped in the strong
marker, classifying them identically with identical payloads. -/
theorem C2_surfaces_differ :
    (renderSlideLine "# Intro".toList).btype = BlockType.heading1 ∧
    renderDocLine "# Intro".toList = some (Block.paragraph "# Intro".toList) ∧
    (renderSlideLine "- item one".toList).btype = BlockType.listItem ∧
    renderDocLine "- item one".toList = some (Block.paragraph "- item one".toList) ∧
    (renderSlideLine "---".toList).btype = BlockType.divider ∧
    renderDocLine "---".toList = some (Block.paragraph "---".toList) ∧
    ∀ line : Line, (['*', '*'] : Line).isPrefixOf line = true →
      (['*', '*'] : Line).isSuffixOf line = true →
      renderDocLine line = some (renderSlideLine line) := by
  refine ⟨by decide, by decide, by decide, by decide, by decide, by decide, ?_⟩
  intro line hp hs
  rw [(strongLine line hp hs).1, (strongLine line hp hs).2]

/-- C2 witness: the strong-marker agreement applied at the line "**bold**". -/
theorem C2_surfaces_differ_witness :
    renderDocLine "**bold**".toList = some (renderSlideLine "**bold**".toList) :=
  C2_surfaces_differ.2.2.2.2.2.2 "**bold**".toList (by decide) (by decide)

/-- C3: with 8 sections, pressing Next at the References position (-2)
computes min(7, -1) = -1 and moves to the Abstract, not a no-op as the
claim states; pressing Previous at the Abstract does stay put. -/
theorem C3_next_at_references :
    nextSection 8 referencesPos = abstractPos ∧ nextSection 8 referencesPos ≠ referencesPos ∧
    prevSection abstractPos = abstractPos := by
  decide

/-- C4 counterexample: the slide renderer does not drop blank lines; it
emits a line-break block for each, so "a\n\nb" yields three units. -/
theorem C4_counterexample :
    renderSlideContent "a\n\nb".toList =
      [Block.paragraph "a".toList, Block.lineBreak, Block.paragraph "b".toList] ∧
    Block.lineBreak ∈ renderSlideContent "a\n\nb".toList := by
  decide

/-- C4 amended: each renderer emits exactly one block per non-blank line;
the document renderer emits nothing for a blank line while the slide
renderer emits a line-break block for each blank line. -/
theorem C4_block_per_line :
    (∀ content : Line,
      (docUnits content).length
        = ((splitLines content).filter (fun l => !(isBlank l))).length) ∧
    (∀ content : Line,
      (renderSlideContent content).length = (splitLines content).length) ∧
    (∀ l : Line, renderSlideLine l = Block.lineBreak ↔ isBlank l = true) ∧
    (∀ l : Line, renderDocLine l = none ↔ isBlank l = true) := by
  refine ⟨fun content => ?_, fun content => ?_,
    renderSlideLine_lineBreak_iff, renderDocLine_eq_none_iff⟩
  · exact docUnits_length (splitLines content)
  · simp [renderSlideContent]

/-- C4 witness: the blank-line behavior evaluated at the empty line. -/
theorem C4_block_per_line_witness :
    renderSlideLine [] = Block.lineBreak ∧ renderDocLine [] = none :=
  ⟨(C4_block_per_line.2.2.1 []).mpr rfl, (C4_block_per_line.2.2.2 []).mpr rfl⟩

/-- The four-line round-trip input of the spec's scenario. -/
def introText : Line := "# Intro\n**Key Point**\n- item one\nplain text".toList

/-- C5 counterexample: the document renderer does not produce the claimed
sequence starting with Heading1("Intro") on the four-line input. -/
theorem C5_counterexample :
    docUnits introText ≠
      [Block.heading1 "Intro".toList, Block.emphasisStrong "Key Point".toList,
        Block.listItem "item one".toList, Block.paragraph "plain text".toList] := by
  decide

/-- C5 amended: on the four-line input the document renderer, which has
no heading or list rules, produces Paragraph("# Intro"),
EmphasisStrong("Key Point"), Paragraph("- item one"),
Paragraph("plain text") — exactly 4 blocks. -/
theorem C5_doc_render_actual :
    docUnits introText =
      [Block.paragraph "# Intro".toList, Block.emphasisStrong "Key Point".toList,
        Block.paragraph "- item one".toList, Block.paragraph "plain text".toList] := by
  decide

/-- C6 counterexample: the code has no minimum-length requirement — the
bare marker line "**" (length 2, not greater than 4) is classified
Emphasis-strong — and the payload strips every occurrence of the marker,
not only the two wrapping ones: "**a**b**" yields payload "ab", not
"a**b". -/
theorem C6_counterexample :
    renderSlideLine "**".toList = Block.emphasisStrong [] ∧
    ¬ (4 < ("**".toList).length) ∧
    renderSlideLine "**a**b**".toList = Block.emphasisStrong "ab".toList ∧
    "ab".toList ≠ "a**b".toList := by
  decide

/-- C6 amended: a line is Emphasis-strong exactly when it starts and ends
with the ** marker (no length condition); the rule precedes the list-item
and paragraph rules, so "**bold**" always yields Emphasis-strong; the
payload is the line with every occurrence of ** removed. -/
theorem C6_strong_rule :
    (∀ line : Line,
      ((renderSlideLine line).btype = BlockType.emphasisStrong ↔
        ((['*', '*'] : Line).isPrefixOf line = true ∧
          (['*', '*'] : Line).isSuffixOf line = true)) ∧
      ((['*', '*'] : Line).isPrefixOf line = true →
        (['*', '*'] : Line).isSuffixOf line = true →
        renderSlideLine line = Block.emphasisStrong (replaceAll ['*', '*'] [] line))) ∧
    renderSlideLine "**bold**".toList = Block.emphasisStrong "bold".toList := by
  refine ⟨fun line => ⟨slideStrong_iff line, fun hp hs => (strongLine line hp hs).1⟩, by decide⟩

/-- C6 witness: the strong rule applied at the line "**x**". -/
theorem C6_strong_rule_witness :
    renderSlideLine "**x**".toList =
      Block.emphasisStrong (replaceAll ['*', '*'] [] "**x**".toList) :=
  (C6_strong_rule.1 "**x**".toList).2 (by decide) (by decide)

/-- C7: previous() is a no-op at index 0 and otherwise decrements; next()
is a no-op at the last index and otherwise increments; both preserve the
invariant that the index stays within the slide range. -/
theorem C7_nav_clamped (numSlides : Int) (s : SlideNav)
    (h0 : 0 ≤ s.currentSlide) (h1 : s.currentSlide ≤ numSlides - 1) :
    (s.currentSlide = 0 → (prevSlide s).currentSlide = s.currentSlide) ∧
    (s.currentSlide ≠ 0 → (prevSlide s).currentSlide = s.currentSlide - 1) ∧
    (s.currentSlide = numSlides - 1 → (nextSlide numSlides s).currentSlide = s.currentSlide) ∧
    (s.currentSlide ≠ numSlides - 1 →
      (nextSlide numSlides s).currentSlide = s.currentSlide + 1) ∧
    0 ≤ (prevSlide s).currentSlide ∧ (prevSlide s).currentSlide ≤ numSlides - 1 ∧
    0 ≤ (nextSlide numSlides s).currentSlide ∧
    (nextSlide numSlides s).currentSlide ≤ numSlides - 1 := by
  unfold prevSlide nextSlide
  split_ifs <;> refine ⟨fun h => ?_, fun h => ?_, fun h => ?_, fun h => ?_, ?_, ?_, ?_, ?_⟩ <;>
    simp_all <;> omega

/-- C7 witness: for a deck of size 1 both moves from slide 0 are no-ops. -/
theorem C7_nav_clamped_witness :
    (prevSlide ⟨0⟩).currentSlide = 0 ∧ (nextSlide 1 ⟨0⟩).currentSlide = 0 :=
  ⟨(C7_nav_clamped 1 ⟨0⟩ (by decide) (by decide)).1 rfl,
    (C7_nav_clamped 1 ⟨0⟩ (by decide) (by decide)).2.2.1 (by decide)⟩

/-- C8: a section whose figure list holds two figures with non-empty
vector markup renders exactly two figure units — each the markup followed
by its caption — after all parsed content blocks, in list order. -/
theorem C8_figures (s : DocSection) (f1 f2 : Figure)
    (hfs : s.figures = [f1, f2])
    (h1 : f1.svg_content ≠ []) (h2 : f2.svg_content ≠ []) :
    renderSection s =
      (docUnits s.content).map Pane.block ++
        [Pane.figureUnit f1.svg_content f1.caption,
          Pane.figureUnit f2.svg_content f2.caption] := by
  simp [renderSection, hfs, renderFigure, h1, h2, List.reduceOption]

/-- C8 witness: the two-figure rendering applied to a concrete section. -/
theorem C8_figures_witness :
    renderSection ⟨"Arch".toList, "body".toList,
        [⟨"<svg>".toList, "Figure A".toList⟩, ⟨"<circle>".toList, "Figure B".toList⟩]⟩ =
      (docUnits "body".toList).map Pane.block ++
        [Pane.figureUnit "<svg>".toList "Figure A".toList,
          Pane.figureUnit "<circle>".toList "Figure B".toList] :=
  C8_figures _ _ _ rfl (by decide) (by decide)

/-- C9: while loading, the loading screen is the only render; a failed
fetch yields the terminal error screen with the error message and a link
back to the home path, with no slide content and no retry — every
navigation event afterwards leaves the error screen in place. -/
theorem C9_error_state :
    (∀ s : SessionState, s.loading = true → renderViewer s = View.loadingView) ∧
    renderViewer initialState = View.loadingView ∧
    renderViewer (applyFetchFailure initialState) = View.errorView failMsg homePath ∧
    (applyFetchFailure initialState).presentation = none ∧
    ∀ ev : NavEvent,
      renderViewer (navStep (applyFetchFailure initialState) ev) =
        View.errorView failMsg homePath := by
  refine ⟨fun s hs => ?_, rfl, rfl, rfl, fun ev => ?_⟩
  · simp [renderViewer, hs]
  · cases ev <;> rfl

/-- C9 witness: the loading-only property evaluated at the initial state. -/
theorem C9_error_state_witness : renderViewer initialState = View.loadingView :=
  C9_error_state.1 initialState rfl

/-- C10: the global keydown listener never dispatches a navigation
command; its redirect is always either absent or the home path, happening
exactly for Escape on the /presentation path; preventDefault happens
exactly for the arrow keys on the /presentation path. -/
theorem C10_keydown_frame :
    ∀ pathname key : String,
      (keydownHandler pathname key).navCommand = none ∧
      ((keydownHandler pathname key).redirect = none ∨
        (keydownHandler pathname key).redirect = some "/") ∧
      ((keydownHandler pathname key).redirect = some "/" ↔
        (pathname = "/presentation" ∧ key = "Escape")) ∧
      ((keydownHandler pathname key).preventDefault = true ↔
        (pathname = "/presentation" ∧ (key = "ArrowLeft" ∨ key = "ArrowRight"))) := by
  intro pathname key
  unfold keydownHandler
  split_ifs <;> simp_all

/-- C10 witness: Escape on the presentation path redirects to the home
path. -/
theorem C10_keydown_frame_witness :
    (keydownHandler "/presentation" "Escape").redirect = some "/" :=
  ((C10_keydown_frame "/presentation" "Escape").2.2.1).mpr ⟨rfl, rfl⟩
